import Mathlib

/-!
Shallow embedding of `main.py` from the raspi-airquality repository:
a telemetry agent that registers custom gauge metrics, then loops
fetching a rainfall observation, building per-metric time-series
envelopes, merging one sensor sample per cycle and publishing.

External effects (environment variables, the weather HTTP call, the
hostname resolution, the sensor read, the monitoring backend, the
clock) are modelled as explicit inputs, and each embedded function
additionally returns the ordered list of external effects it performs.
-/

/-- Module-level constants of `main.py`. -/
def POLL_INTERVAL : Nat := 10

def WEATHER_LONG : String := "139.7041"

def WEATHER_LAT : String := "35.6618"

def RESOURCE_NAMESPACE : String := "ymotongpoo"

/-- The exceptions the program can raise (plus Python built-ins it
actually hits): `KeyError` from `os.environ[...]`, the two custom
configuration errors, and the fetch/backend failure families. -/
inductive Err where
  | keyError (name : String)
  | missingAppIdError
  | missingProjectIdError
  | fetchError
  | registrationError
  | publishError
  deriving DecidableEq

/-- `MetricDescriptor.MetricKind` enum (protobuf default is unspecified). -/
inductive MetricKind where
  | UNSPECIFIED
  | GAUGE
  | DELTA
  | CUMULATIVE
  deriving DecidableEq

/-- `MetricDescriptor.ValueType` / `LabelDescriptor.ValueType` enum. -/
inductive ValueType where
  | UNSPECIFIED
  | BOOL
  | INT64
  | DOUBLE
  | STRING
  deriving DecidableEq

structure LabelDescriptor where
  key : String
  value_type : ValueType
  description : String
  deriving DecidableEq

structure MetricDescriptor where
  type : String
  metric_kind : MetricKind
  value_type : ValueType
  labels : List LabelDescriptor
  description : String
  deriving DecidableEq

/-- One `Point` of a `TimeSeries`: value and end-time timestamp.
Wall-clock values are modelled as exact rationals. -/
structure Point where
  double_value : ℚ
  seconds : Int
  nanos : Int
  deriving DecidableEq

/-- A `monitoring_v3.types.TimeSeries` as `create_time_series` populates
it: metric type, the single `rainfall` metric label, the `generic_node`
resource with its three labels, and the point list. -/
structure TimeSeries where
  metricType : String
  rainfallLabel : String
  resourceType : String
  location : String
  ns : String
  nodeId : String
  points : List Point
  deriving DecidableEq

/-- One entry of the parsed weather list
`obj['Feature'][0]['Property']['WeatherList']['Weather']`; the `Rainfall`
field is the value after Python's `int(...)` conversion. -/
structure Weather where
  type : String
  rainfall : Int
  deriving DecidableEq

/-- Outcome of the HTTP request `urllib.request.urlopen` issues inside
`fetch_rainfall`, together with JSON decoding and shape extraction:
`failure` covers network failure, a non-2xx response and malformed
JSON; `ok` carries the first Feature's weather list. -/
inductive HttpOutcome where
  | failure
  | ok (weathers : List Weather)
  deriving DecidableEq

/-- External effects a run performs, in order. -/
inductive Effect where
  | httpGet (url : String)
  | resolveHostname
  | sensorRead
  | createDescriptor (d : MetricDescriptor)
  | publish (series : List TimeSeries)
  | sleep (secs : Nat)
  deriving DecidableEq

def Effect.isHttpGet : Effect → Bool
  | .httpGet _ => true
  | _ => false

def Effect.isPublish : Effect → Bool
  | .publish _ => true
  | _ => false

/-- `os.environ` as an association list; `lookupEnv` is `os.environ.get`. -/
def lookupEnv (env : List (String × String)) (k : String) : Option String :=
  env.lookup k

/-- Python `int(...)` applied to a rational: truncation toward zero. -/
def pyInt (q : ℚ) : Int :=
  if q < 0 then ⌈q⌉ else ⌊q⌋

/-- The request URL built at lines 69-70 of `main.py`. -/
def api_url (long lat app_id : String) : String :=
  "https://map.yahooapis.jp/weather/V1/place?coordinates=" ++ long ++ ","
    ++ lat ++ "&appid=" ++ app_id ++ "&output=json"

/-- The scan at lines 76-78: first entry whose `Type` is `"observation"`. -/
def findObservation : List Weather → Option Int
  | [] => none
  | w :: ws => if w.type = "observation" then some w.rainfall else findObservation ws

/-- `fetch_rainfall(long, lat)` (lines 52-79). `os.environ['YAHOO_APP_ID']`
raises `KeyError` when the variable is unset; `MissingAppIdError` is raised
only when it is set to the empty string. On a usable app id one HTTP
request is issued; its outcome is the explicit `http` input. -/
def fetch_rainfall (env : List (String × String)) (http : HttpOutcome)
    (long lat : String) : List Effect × Except Err Int :=
  match lookupEnv env "YAHOO_APP_ID" with
  | none => ([], .error (.keyError "YAHOO_APP_ID"))
  | some app_id =>
    if app_id = "" then
      ([], .error .missingAppIdError)
    else
      let url := api_url long lat app_id
      match http with
      | .failure => ([.httpGet url], .error .fetchError)
      | .ok weathers =>
        match findObservation weathers with
        | some r => ([.httpGet url], .ok r)
        | none => ([.httpGet url], .ok (-1))

/-- `get_project_id()` (lines 86-98): `KeyError` when unset,
`MissingProjectIdError` when empty. -/
def get_project_id (env : List (String × String)) : Except Err String :=
  match lookupEnv env "GOOGLE_CLOUD_PROJECT" with
  | none => .error (.keyError "GOOGLE_CLOUD_PROJECT")
  | some project_id =>
    if project_id = "" then .error .missingProjectIdError else .ok project_id

/-- `custom_metric(metric_type)` (lines 101-109). -/
def custom_metric (metric_type : String) : String :=
  "custom.googleapis.com/" ++ metric_type

/-- `resource_name(metric_type)` (lines 112-124). -/
def resource_name (env : List (String × String)) (metric_type : String) :
    Except Err String :=
  match get_project_id env with
  | .error e => .error e
  | .ok project_id =>
    .ok ("projects/" ++ project_id ++ "/metricDescriptors/"
      ++ custom_metric metric_type)

/-- The descriptor `create_double_guage_metrics` assembles field by field
(lines 140-151) before handing it to the backend. -/
def build_descriptor (metric_name description : String) : MetricDescriptor :=
  { type := custom_metric metric_name
    metric_kind := .GAUGE
    value_type := .DOUBLE
    labels := [{ key := "rainfall"
                 value_type := .INT64
                 description := "observed rainfall data from weather report service" }]
    description := description }

/-- `create_double_guage_metrics(metric_name, description)` (lines
127-153). `backend` models `client.create_metric_descriptor`; project-id
resolution happens first (inside `client.project_path(get_project_id())`)
and a failure there propagates before any backend call. -/
def create_double_guage_metrics (env : List (String × String))
    (backend : MetricDescriptor → Except Err MetricDescriptor)
    (metric_name description : String) :
    List Effect × Except Err MetricDescriptor :=
  match get_project_id env with
  | .error e => ([], .error e)
  | .ok _ =>
    let descriptor := build_descriptor metric_name description
    ([.createDescriptor descriptor], backend descriptor)

/-- `create_sensor_metrics(metric_dict)` (lines 156-165): one
create-descriptor call per catalog entry, in order; the first raised
exception propagates, ending the iteration. -/
def create_sensor_metrics (env : List (String × String))
    (backend : MetricDescriptor → Except Err MetricDescriptor) :
    List (String × String) → List Effect × Except Err Unit
  | [] => ([], .ok ())
  | (mtype, mdesc) :: rest =>
    match create_double_guage_metrics env backend mtype mdesc with
    | (tr, .error e) => (tr, .error e)
    | (tr, .ok _) =>
      let (tr2, res) := create_sensor_metrics env backend rest
      (tr ++ tr2, res)

/-- The per-call external world of `create_time_series`: what
`socket.gethostname()` returns at this moment and how the rainfall HTTP
request turns out. -/
structure World where
  env : List (String × String)
  hostnameNow : String
  http : HttpOutcome

/-- The series one iteration of the loop at lines 182-194 builds for
key `typ`: metric type, stringified rainfall label, the `generic_node`
resource labels, the freshly resolved hostname, and no points yet. -/
def base_series (typ : String) (rainfall : Int) (hostname : String) : TimeSeries :=
  { metricType := custom_metric typ
    rainfallLabel := toString rainfall
    resourceType := "generic_node"
    location := "asia-northeast1-a"
    ns := RESOURCE_NAMESPACE
    nodeId := hostname
    points := [] }

/-- `create_time_series(hostname, metric_dict)` (lines 168-196). Line 179
immediately shadows the `hostname` parameter with a fresh
`socket.gethostname()` call, so the parameter is dead; line 181 fetches
rainfall (any exception propagates — there is no handler); then one
`TimeSeries` per catalog key is built with empty points. -/
def create_time_series (w : World) (hostname : String)
    (metric_dict : List (String × String)) :
    List Effect × Except Err (List (String × TimeSeries)) :=
  let hostname := w.hostnameNow
  match fetch_rainfall w.env w.http WEATHER_LONG WEATHER_LAT with
  | (tr, .error e) => (.resolveHostname :: tr, .error e)
  | (tr, .ok rainfall) =>
    (.resolveHostname :: tr,
      .ok (metric_dict.map (fun p => (p.1, base_series p.1 rainfall hostname))))

/-- One sensor sample as read at lines 224-232 (every field is assigned
to a double-valued point, so all are modelled as rationals). -/
structure SensorData where
  temperature : ℚ
  pressure : ℚ
  humidity : ℚ
  gas_resistance : ℚ
  gas_index : ℚ
  meas_index : ℚ
  heat_stable : ℚ
  deriving DecidableEq

/-- The `data` dict of lines 224-232, in insertion order. -/
def data_fields (s : SensorData) : List (String × ℚ) :=
  [("temperature", s.temperature), ("pressure", s.pressure),
   ("humidity", s.humidity), ("gas_resistance", s.gas_resistance),
   ("gas_index", s.gas_index), ("meas_index", s.meas_index),
   ("heat_stable", s.heat_stable)]

/-- The point built at lines 235-240: `int(now)` seconds and
`int((now - int(now)) * 10**9)` nanoseconds. -/
def mkPoint (value : ℚ) (now : ℚ) : Point :=
  { double_value := value
    seconds := pyInt now
    nanos := pyInt ((now - (pyInt now : ℚ)) * 10 ^ 9) }

/-- `series = series_dict[typ]; series.points.add(); ...` — append one
point to the series stored under key `typ`. -/
def append_point (series_dict : List (String × TimeSeries)) (typ : String)
    (pt : Point) : List (String × TimeSeries) :=
  series_dict.map (fun p =>
    if p.1 = typ then (p.1, { p.2 with points := p.2.points ++ [pt] }) else p)

/-- The merge loop of lines 233-240. `time.time()` is called afresh for
every field, modelled by `clock i` for the `i`-th iteration. -/
def merge_points (series_dict : List (String × TimeSeries)) (s : SensorData)
    (clock : Nat → ℚ) : List (String × TimeSeries) :=
  (data_fields s).enum.foldl
    (fun sd iv => append_point sd iv.2.1 (mkPoint iv.2.2 (clock iv.1)))
    series_dict

/-- Everything outside the process that one loop iteration observes. -/
structure CycleInput where
  env : List (String × String)
  hostnameNow : String
  http : HttpOutcome
  sample : Option SensorData
  clock : Nat → ℚ
  publishResult : Except Err Unit

/-- One iteration of the `while True` body (lines 221-245):
`create_time_series`, then the sensor read; when a sample is present the
merge loop runs, the project id is resolved again and the batch is
published in one call; finally `time.sleep(POLL_INTERVAL)`. Any raised
exception propagates (only `KeyboardInterrupt` is caught, outside the
loop), so an `.error` result ends the loop. -/
def run_cycle (hostname : String) (metric_dict : List (String × String))
    (c : CycleInput) : List Effect × Except Err (List (String × TimeSeries)) :=
  match create_time_series
      { env := c.env, hostnameNow := c.hostnameNow, http := c.http }
      hostname metric_dict with
  | (tr, .error e) => (tr, .error e)
  | (tr, .ok series_dict) =>
    match c.sample with
    | none => (tr ++ [.sensorRead, .sleep POLL_INTERVAL], .ok series_dict)
    | some s =>
      let merged := merge_points series_dict s c.clock
      match get_project_id c.env with
      | .error e => (tr ++ [.sensorRead], .error e)
      | .ok _ =>
        match c.publishResult with
        | .error e =>
          (tr ++ [.sensorRead, .publish (merged.map Prod.snd)], .error e)
        | .ok _ =>
          (tr ++ [.sensorRead, .publish (merged.map Prod.snd),
                  .sleep POLL_INTERVAL], .ok merged)

/-- The `while True` loop under the `try` (lines 218-248), run over a
finite schedule of cycle inputs; an exhausted schedule stands for the
`KeyboardInterrupt` that ends the loop cleanly. -/
def run_loop (hostname : String) (metric_dict : List (String × String)) :
    List CycleInput → List Effect × Except Err Unit
  | [] => ([], .ok ())
  | c :: cs =>
    match run_cycle hostname metric_dict c with
    | (tr, .error e) => (tr, .error e)
    | (tr, .ok _) =>
      let (tr2, res) := run_loop hostname metric_dict cs
      (tr ++ tr2, res)

/-- The metric catalog literal of lines 200-208. -/
def metric_dict : List (String × String) :=
  [("temperature", "air temperature"),
   ("pressure", "barometric pressure"),
   ("humidity", "air humidity"),
   ("gas_resistance", "indicator of air quality"),
   ("gas_index", ""),
   ("meas_index", ""),
   ("heat_stable", "")]

/-- `main()` (lines 199-248): register all descriptors, initialise the
sensor, resolve the hostname once (line 217), then run the loop.
`startupHostname` is what `socket.gethostname()` returns at line 217. -/
def main_model (env : List (String × String))
    (backend : MetricDescriptor → Except Err MetricDescriptor)
    (startupHostname : String) (cycles : List CycleInput) :
    List Effect × Except Err Unit :=
  match create_sensor_metrics env backend metric_dict with
  | (tr, .error e) => (tr, .error e)
  | (tr, .ok _) =>
    let (tr2, res) := run_loop startupHostname metric_dict cycles
    (tr ++ [.resolveHostname] ++ tr2, res)

/-! ### Concrete inputs used by witnesses and counterexamples -/

/-- An environment with both required variables set. -/
def envAll : List (String × String) :=
  [("YAHOO_APP_ID", "abc"), ("GOOGLE_CLOUD_PROJECT", "proj")]

/-- The sample of the spec's worked scenario (other fields arbitrary). -/
def sampleData : SensorData :=
  { temperature := 21.5, pressure := 1013, humidity := 60.2,
    gas_resistance := 100000, gas_index := 1, meas_index := 0,
    heat_stable := 1 }

/-- A cycle whose sensor read reports no new data. -/
def cycleNoSample : CycleInput :=
  { env := envAll, hostnameNow := "host-b", http := .ok [],
    sample := none, clock := fun _ => 100, publishResult := .ok () }

/-- A cycle with an observation entry and a fresh sample. -/
def cycleWithSample : CycleInput :=
  { env := envAll, hostnameNow := "host", http := .ok [⟨"observation", 3⟩],
    sample := some sampleData, clock := fun _ => 100, publishResult := .ok () }

/-- A cycle whose rainfall HTTP request fails. -/
def cycleFetchFail : CycleInput :=
  { env := envAll, hostnameNow := "host", http := .failure,
    sample := some sampleData, clock := fun _ => 100, publishResult := .ok () }

/-! ### Helper lemmas -/

theorem pyInt_eq_floor (q : ℚ) (h : 0 ≤ q) : pyInt q = ⌊q⌋ := by
  simp [pyInt, not_lt.mpr h]

/-- Bounds on the nanosecond component for a nonnegative clock value. -/
theorem mkPoint_nanos_bound (v now : ℚ) (h : 0 ≤ now) :
    0 ≤ (mkPoint v now).nanos ∧ (mkPoint v now).nanos ≤ 999999999 := by
  have h1 : pyInt now = ⌊now⌋ := pyInt_eq_floor now h
  have hfr0 : (0 : ℚ) ≤ now - (⌊now⌋ : ℚ) := by
    have := Int.floor_le now; linarith
  have hfr1 : now - (⌊now⌋ : ℚ) < 1 := by
    have := Int.lt_floor_add_one now; linarith
  have harg0 : (0 : ℚ) ≤ (now - (⌊now⌋ : ℚ)) * 10 ^ 9 := by positivity
  have h2 : pyInt ((now - (⌊now⌋ : ℚ)) * 10 ^ 9)
      = ⌊(now - (⌊now⌋ : ℚ)) * 10 ^ 9⌋ := pyInt_eq_floor _ harg0
  have hnn : (mkPoint v now).nanos = ⌊(now - (⌊now⌋ : ℚ)) * 10 ^ 9⌋ := by
    simp only [mkPoint, h1, h2]
  constructor
  · rw [hnn]; exact Int.floor_nonneg.mpr harg0
  · rw [hnn]
    have hlt : ((now - (⌊now⌋ : ℚ)) * 10 ^ 9) < ((10 ^ 9 : Int) : ℚ) := by
      push_cast; nlinarith
    have := Int.floor_lt.mpr hlt
    omega

/-- Every effect `fetch_rainfall` performs is the single HTTP request. -/
theorem fetch_trace_only_http (env : List (String × String))
    (http : HttpOutcome) (long lat : String) :
    ∀ e ∈ (fetch_rainfall env http long lat).1, e.isHttpGet = true := by
  unfold fetch_rainfall
  rcases lookupEnv env "YAHOO_APP_ID" with _ | a
  · simp
  · by_cases ha : a = ""
    · simp [ha]
    · rcases http with _ | ws
      · simp [ha, Effect.isHttpGet]
      · rcases h : findObservation ws with _ | r <;>
          simp [ha, h, Effect.isHttpGet]

/-- A successful fetch means the app id was present and nonempty and the
trace is exactly the one HTTP request. -/
theorem fetch_ok_trace (env : List (String × String)) (http : HttpOutcome)
    (long lat : String) (tr : List Effect) (r : Int)
    (h : fetch_rainfall env http long lat = (tr, .ok r)) :
    ∃ app_id, lookupEnv env "YAHOO_APP_ID" = some app_id ∧ app_id ≠ ""
      ∧ tr = [.httpGet (api_url long lat app_id)] := by
  unfold fetch_rainfall at h
  rcases hl : lookupEnv env "YAHOO_APP_ID" with _ | a
  · rw [hl] at h; simp at h
  · rw [hl] at h
    by_cases ha : a = ""
    · simp [ha] at h
    · refine ⟨a, rfl, ha, ?_⟩
      rcases http with _ | ws
      · simp [ha] at h
      · rcases hf : findObservation ws with _ | r' <;> simp [ha, hf] at h <;>
          exact h.1.symm

/-- `create_time_series` in terms of the fetch it performs. -/
theorem cts_eq (w : World) (hostname : String) (md : List (String × String)) :
    create_time_series w hostname md
      = (.resolveHostname :: (fetch_rainfall w.env w.http WEATHER_LONG WEATHER_LAT).1,
         match (fetch_rainfall w.env w.http WEATHER_LONG WEATHER_LAT).2 with
         | .error e => .error e
         | .ok r => .ok (md.map fun p => (p.1, base_series p.1 r w.hostnameNow))) := by
  unfold create_time_series
  rcases hf : fetch_rainfall w.env w.http WEATHER_LONG WEATHER_LAT with ⟨tr, res⟩
  rcases res with e | r <;> rfl

/-- Appending a point alters only the `points` field of one entry. -/
theorem append_point_labels (sd : List (String × TimeSeries)) (typ : String)
    (pt : Point) :
    (append_point sd typ pt).map (fun p => (p.1, p.2.rainfallLabel))
      = sd.map (fun p => (p.1, p.2.rainfallLabel)) := by
  unfold append_point
  rw [List.map_map]
  apply List.map_congr_left
  intro p _
  by_cases h : p.1 = typ <;> simp [h]

/-- The merge fold leaves every key and rainfall label unchanged. -/
theorem merge_fold_labels (clock : Nat → ℚ) (l : List (Nat × (String × ℚ)))
    (sd : List (String × TimeSeries)) :
    (l.foldl (fun sd iv => append_point sd iv.2.1 (mkPoint iv.2.2 (clock iv.1)))
        sd).map (fun p => (p.1, p.2.rainfallLabel))
      = sd.map (fun p => (p.1, p.2.rainfallLabel)) := by
  induction l generalizing sd with
  | nil => rfl
  | cons iv l ih => rw [List.foldl_cons, ih, append_point_labels]

/-- `merge_points` leaves every key and rainfall label unchanged. -/
theorem merge_points_labels (sd : List (String × TimeSeries)) (s : SensorData)
    (clock : Nat → ℚ) :
    (merge_points sd s clock).map (fun p => (p.1, p.2.rainfallLabel))
      = sd.map (fun p => (p.1, p.2.rainfallLabel)) := by
  unfold merge_points
  exact merge_fold_labels clock _ sd

/-- Explicit result of the merge loop of lines 233-240 on the catalog of
`main`: one point per metric, the `i`-th field stamped with the `i`-th
`time.time()` reading. -/
def merged_expected (r : Int) (host : String) (s : SensorData)
    (clock : Nat → ℚ) : List (String × TimeSeries) :=
  [("temperature",
    { base_series "temperature" r host with points := [mkPoint s.temperature (clock 0)] }),
   ("pressure",
    { base_series "pressure" r host with points := [mkPoint s.pressure (clock 1)] }),
   ("humidity",
    { base_series "humidity" r host with points := [mkPoint s.humidity (clock 2)] }),
   ("gas_resistance",
    { base_series "gas_resistance" r host with points := [mkPoint s.gas_resistance (clock 3)] }),
   ("gas_index",
    { base_series "gas_index" r host with points := [mkPoint s.gas_index (clock 4)] }),
   ("meas_index",
    { base_series "meas_index" r host with points := [mkPoint s.meas_index (clock 5)] }),
   ("heat_stable",
    { base_series "heat_stable" r host with points := [mkPoint s.heat_stable (clock 6)] })]

/-- Computing the merge loop on the seven-metric catalog. -/
theorem merge_points_metric_dict (r : Int) (host : String) (s : SensorData)
    (clock : Nat → ℚ) :
    merge_points (metric_dict.map fun p => (p.1, base_series p.1 r host)) s clock
      = merged_expected r host s clock := by
  rfl

/-! ### Claim theorems -/

theorem findObservation_eq_none (ws : List Weather)
    (h : ∀ w ∈ ws, w.type ≠ "observation") : findObservation ws = none := by
  induction ws with
  | nil => rfl
  | cons w ws ih =>
    rw [findObservation, if_neg (h w (List.mem_cons_self w ws))]
    exact ih fun x hx => h x (List.mem_cons_of_mem _ hx)

/-- C6: when the first Feature's weather list has no entry of type
`"observation"`, `fetch_rainfall` returns the sentinel `-1` as a normal
value (an `ok` result after the one HTTP request), not an error. -/
theorem C6_no_observation_returns_sentinel
    (env : List (String × String)) (app_id : String) (weathers : List Weather)
    (henv : lookupEnv env "YAHOO_APP_ID" = some app_id) (hne : app_id ≠ "")
    (hobs : ∀ w ∈ weathers, w.type ≠ "observation") :
    fetch_rainfall env (.ok weathers) WEATHER_LONG WEATHER_LAT
      = ([.httpGet (api_url WEATHER_LONG WEATHER_LAT app_id)], .ok (-1)) := by
  unfold fetch_rainfall
  rw [henv]
  simp [hne, findObservation_eq_none weathers hobs]

/-- Witness for C6 at a concrete forecast-only response. -/
theorem C6_no_observation_returns_sentinel_witness :
    fetch_rainfall [("YAHOO_APP_ID", "abc")] (.ok [⟨"forecast", 5⟩])
        WEATHER_LONG WEATHER_LAT
      = ([.httpGet (api_url WEATHER_LONG WEATHER_LAT "abc")], .ok (-1)) :=
  C6_no_observation_returns_sentinel [("YAHOO_APP_ID", "abc")] "abc"
    [⟨"forecast", 5⟩] rfl (by decide) (by decide)

/-- C2 (code bug): with `YAHOO_APP_ID` unset, `os.environ['YAHOO_APP_ID']`
raises Python's `KeyError` — not `MissingAppIdError` as the claim and the
function's own docstring state; `MissingAppIdError` is raised only when
the variable is set to the empty string.  In both cases no HTTP request
is issued (the effect trace is empty), even when the request would have
succeeded or failed. -/
theorem C2_unset_app_id_raises_keyerror :
    fetch_rainfall [] (.ok [⟨"observation", 3⟩]) WEATHER_LONG WEATHER_LAT
        = ([], .error (.keyError "YAHOO_APP_ID"))
      ∧ fetch_rainfall [] .failure WEATHER_LONG WEATHER_LAT
        = ([], .error (.keyError "YAHOO_APP_ID"))
      ∧ fetch_rainfall [("YAHOO_APP_ID", "")] (.ok [⟨"observation", 3⟩])
          WEATHER_LONG WEATHER_LAT
        = ([], .error .missingAppIdError)
      ∧ Err.keyError "YAHOO_APP_ID" ≠ Err.missingAppIdError :=
  ⟨rfl, rfl, rfl, by decide⟩

/-- C3 (code bug): line 179 of `main.py` shadows the `hostname` parameter
that `main` resolved once at startup with a fresh `socket.gethostname()`
call, so the envelopes carry the per-cycle resolved hostname (`"host-b"`)
rather than the startup-resolved one (`"host-a"`), and a run with two
cycles performs three hostname resolutions (one at startup plus one per
cycle) instead of one. -/
theorem C3_node_id_resolved_every_cycle :
    (create_time_series
        { env := envAll, hostnameNow := "host-b", http := .ok [] }
        "host-a" [("temperature", "air temperature")]).2
      = .ok [("temperature", base_series "temperature" (-1) "host-b")]
    ∧ (base_series "temperature" (-1) "host-b").nodeId = "host-b"
    ∧ ("host-b" : String) ≠ "host-a"
    ∧ (main_model envAll (fun d => .ok d) "host-a"
        [cycleNoSample, cycleNoSample]).1.count .resolveHostname = 3 :=
  ⟨rfl, rfl, by decide, by rfl⟩

/-- C1 counterexample: a cycle whose rainfall HTTP request fails (sample
available, backend healthy) does not proceed with rainfall `-1` — it
returns the propagated `FetchError` after only the hostname resolution
and the failed request, with no sensor read, no envelope and no publish;
there is no handler at lines 181 or 218-248. -/
theorem C1_fetch_error_propagates_counterexample :
    run_cycle "host" metric_dict cycleFetchFail
      = ([.resolveHostname, .httpGet (api_url WEATHER_LONG WEATHER_LAT "abc")],
         .error .fetchError) := rfl

/-- C1 amended: a `FetchError` during the rainfall fetch is not absorbed;
it propagates out of `create_time_series`, aborting the cycle (no sensor
read, no publish, no sleep) and terminating the loop, whatever cycles
were scheduled to follow.  The sentinel `-1` arises only from a
successful fetch with no observation entry. -/
theorem C1_fetch_error_aborts_cycle (hostname : String)
    (md : List (String × String)) (c : CycleInput) (cs : List CycleInput)
    (app_id : String)
    (henv : lookupEnv c.env "YAHOO_APP_ID" = some app_id) (hne : app_id ≠ "")
    (hhttp : c.http = .failure) :
    run_cycle hostname md c
        = ([.resolveHostname, .httpGet (api_url WEATHER_LONG WEATHER_LAT app_id)],
           .error .fetchError)
      ∧ run_loop hostname md (c :: cs)
        = ([.resolveHostname, .httpGet (api_url WEATHER_LONG WEATHER_LAT app_id)],
           .error .fetchError) := by
  have hfetch : fetch_rainfall c.env c.http WEATHER_LONG WEATHER_LAT
      = ([.httpGet (api_url WEATHER_LONG WEATHER_LAT app_id)], .error .fetchError) := by
    unfold fetch_rainfall
    rw [henv, hhttp]
    simp [hne]
  have hcycle : run_cycle hostname md c
      = ([.resolveHostname, .httpGet (api_url WEATHER_LONG WEATHER_LAT app_id)],
         .error .fetchError) := by
    unfold run_cycle
    rw [cts_eq]
    simp [hfetch]
  refine ⟨hcycle, ?_⟩
  unfold run_loop
  rw [hcycle]

/-- Witness for C1's amended theorem at the concrete failing cycle. -/
theorem C1_fetch_error_aborts_cycle_witness :
    run_cycle "host" metric_dict cycleFetchFail
        = ([.resolveHostname, .httpGet (api_url WEATHER_LONG WEATHER_LAT "abc")],
           .error .fetchError)
      ∧ run_loop "host" metric_dict [cycleFetchFail, cycleWithSample]
        = ([.resolveHostname, .httpGet (api_url WEATHER_LONG WEATHER_LAT "abc")],
           .error .fetchError) :=
  C1_fetch_error_aborts_cycle "host" metric_dict cycleFetchFail
    [cycleWithSample] "abc" rfl (by decide) rfl

/-- C4 counterexample: `create_time_series` is not free of external
interaction — a call's effect trace contains the hostname resolution and
the rainfall HTTP request it performs. -/
theorem C4_performs_external_interaction_counterexample :
    (create_time_series { env := envAll, hostnameNow := "host", http := .ok [] }
        "host" metric_dict).1
      = [.resolveHostname, .httpGet (api_url WEATHER_LONG WEATHER_LAT "abc")]
    ∧ Effect.isHttpGet (.httpGet (api_url WEATHER_LONG WEATHER_LAT "abc")) = true :=
  ⟨rfl, rfl⟩

/-- C4 amended: `create_time_series` is deterministic given its external
observations — two calls observing the same resolved hostname and the
same fetch outcome return identical results (same envelopes, same effect
trace), for any catalog and regardless of the (dead) `hostname`
parameter; but the call itself performs external interactions. -/
theorem C4_deterministic_given_observations (w1 w2 : World)
    (h1 h2 : String) (md : List (String × String))
    (hh : w1.hostnameNow = w2.hostnameNow)
    (hf : fetch_rainfall w1.env w1.http WEATHER_LONG WEATHER_LAT
        = fetch_rainfall w2.env w2.http WEATHER_LONG WEATHER_LAT) :
    create_time_series w1 h1 md = create_time_series w2 h2 md := by
  rw [cts_eq, cts_eq, hf, hh]

/-- Witness for C4: same observations, different dead parameter. -/
theorem C4_deterministic_given_observations_witness :
    create_time_series { env := envAll, hostnameNow := "host", http := .ok [] }
        "a" metric_dict
      = create_time_series { env := envAll, hostnameNow := "host", http := .ok [] }
        "b" metric_dict :=
  C4_deterministic_given_observations _ _ "a" "b" metric_dict rfl rfl

/-- An effect that is the HTTP request is not a publish call. -/
theorem isHttpGet_not_isPublish (e : Effect) (h : e.isHttpGet = true) :
    e.isPublish = false := by
  cases e <;> simp_all [Effect.isHttpGet, Effect.isPublish]

/-- C5: in a cycle whose sensor read reports no new data, the backend
publish call is never invoked (zero publish effects in the cycle trace);
when the cycle completes, the envelopes it built all carry zero points
and the last thing the cycle does is the sleep. -/
theorem C5_absent_sample_skips_publish (hostname : String)
    (md : List (String × String)) (c : CycleInput) (hs : c.sample = none) :
    (run_cycle hostname md c).1.countP Effect.isPublish = 0
    ∧ ∀ sd, (run_cycle hostname md c).2 = .ok sd →
        sd.map (fun p => p.2.points) = md.map (fun _ => ([] : List Point))
        ∧ (run_cycle hostname md c).1.getLast? = some (.sleep POLL_INTERVAL) := by
  rcases hf : fetch_rainfall c.env c.http WEATHER_LONG WEATHER_LAT with ⟨ftr, fres⟩
  have hftr : ftr.countP Effect.isPublish = 0 := by
    rw [List.countP_eq_zero]
    intro e he
    have h := fetch_trace_only_http c.env c.http WEATHER_LONG WEATHER_LAT
    rw [hf] at h
    simp [isHttpGet_not_isPublish e (h e he)]
  rcases fres with e | r
  · have hrc : run_cycle hostname md c = (.resolveHostname :: ftr, .error e) := by
      unfold run_cycle
      rw [cts_eq]
      simp [hf]
    rw [hrc]
    constructor
    · simp [List.countP_cons, Effect.isPublish, hftr]
    · intro sd hsd
      simp at hsd
  · have hrc : run_cycle hostname md c
        = ((.resolveHostname :: ftr ++ [.sensorRead]) ++ [.sleep POLL_INTERVAL],
           .ok (md.map fun p => (p.1, base_series p.1 r c.hostnameNow))) := by
      unfold run_cycle
      rw [cts_eq]
      simp [hf, hs]
    rw [hrc]
    constructor
    · simp [List.countP_cons, List.countP_append, Effect.isPublish, hftr]
    · intro sd hsd
      simp only [Except.ok.injEq] at hsd
      subst hsd
      constructor
      · rw [List.map_map]
        apply List.map_congr_left
        intro a _
        rfl
      · exact List.getLast?_concat _

/-- Witness for C5 at a concrete no-data cycle. -/
theorem C5_absent_sample_skips_publish_witness :
    (run_cycle "host" metric_dict cycleNoSample).1.countP Effect.isPublish = 0
    ∧ (run_cycle "host" metric_dict cycleNoSample).1.getLast?
      = some (.sleep POLL_INTERVAL) :=
  ⟨(C5_absent_sample_skips_publish "host" metric_dict cycleNoSample rfl).1,
   ((C5_absent_sample_skips_publish "host" metric_dict cycleNoSample rfl).2
      (metric_dict.map fun p => (p.1, base_series p.1 (-1) "host-b"))
      (by rfl)).2⟩

/-- C8: on a successful fetch of rainfall `r`, `create_time_series`
returns exactly one envelope per catalog entry, keyed by its metric id
(key list identical to the catalog's, so still without duplicates), each
with metric type `custom.googleapis.com/<id>` and rainfall label the
stringification of `r` — including `r = -1`. -/
theorem C8_one_envelope_per_definition (w : World) (hostname : String)
    (md : List (String × String)) (tr : List Effect) (r : Int)
    (hf : fetch_rainfall w.env w.http WEATHER_LONG WEATHER_LAT = (tr, .ok r))
    (hnd : (md.map Prod.fst).Nodup) :
    (create_time_series w hostname md).2
      = .ok (md.map fun p => (p.1, base_series p.1 r w.hostnameNow))
    ∧ ((md.map fun p => (p.1, base_series p.1 r w.hostnameNow)).map Prod.fst
        = md.map Prod.fst)
    ∧ ((md.map fun p => (p.1, base_series p.1 r w.hostnameNow)).map Prod.fst).Nodup
    ∧ ∀ p ∈ md.map fun p => (p.1, base_series p.1 r w.hostnameNow),
        p.2.metricType = custom_metric p.1 ∧ p.2.rainfallLabel = toString r := by
  have hkeys : (md.map fun p => (p.1, base_series p.1 r w.hostnameNow)).map Prod.fst
      = md.map Prod.fst := by
    rw [List.map_map]
    apply List.map_congr_left
    intro a _
    rfl
  refine ⟨?_, hkeys, hkeys ▸ hnd, ?_⟩
  · rw [cts_eq]
    simp [hf]
  · intro p hp
    obtain ⟨q, _, rfl⟩ := List.mem_map.mp hp
    exact ⟨rfl, rfl⟩

/-- Witness for C8 at a concrete observation response with rainfall 3. -/
theorem C8_one_envelope_per_definition_witness :
    (create_time_series
        { env := envAll, hostnameNow := "host", http := .ok [⟨"observation", 3⟩] }
        "host" metric_dict).2
      = .ok (metric_dict.map fun p => (p.1, base_series p.1 3 "host"))
    ∧ ((metric_dict.map fun p => (p.1, base_series p.1 3 "host")).map Prod.fst
        = metric_dict.map Prod.fst) :=
  ⟨(C8_one_envelope_per_definition
      { env := envAll, hostnameNow := "host", http := .ok [⟨"observation", 3⟩] }
      "host" metric_dict
      [.httpGet (api_url WEATHER_LONG WEATHER_LAT "abc")] 3 rfl (by decide)).1,
   (C8_one_envelope_per_definition
      { env := envAll, hostnameNow := "host", http := .ok [⟨"observation", 3⟩] }
      "host" metric_dict
      [.httpGet (api_url WEATHER_LONG WEATHER_LAT "abc")] 3 rfl (by decide)).2.1⟩

/-- C10: in any cycle that completes with envelopes, exactly one HTTP
rainfall request appears in the cycle's effect trace, and every envelope
carries the same rainfall label — the stringification of the one fetched
value — whatever metric it belongs to. -/
theorem C10_rainfall_fetched_once_and_uniform (hostname : String)
    (md : List (String × String)) (c : CycleInput)
    (merged : List (String × TimeSeries))
    (hok : (run_cycle hostname md c).2 = .ok merged) :
    (run_cycle hostname md c).1.countP Effect.isHttpGet = 1
    ∧ ∃ r : Int, merged.map (fun p => (p.1, p.2.rainfallLabel))
        = md.map (fun p => (p.1, toString r)) := by
  rcases hf : fetch_rainfall c.env c.http WEATHER_LONG WEATHER_LAT with ⟨ftr, fres⟩
  rcases fres with e | r
  · have hrc : run_cycle hostname md c = (.resolveHostname :: ftr, .error e) := by
      unfold run_cycle
      rw [cts_eq]
      simp [hf]
    rw [hrc] at hok
    simp at hok
  · obtain ⟨app_id, henv, hne, hftr⟩ := fetch_ok_trace _ _ _ _ _ _ hf
    subst hftr
    have hbuilt : (md.map fun p => (p.1, base_series p.1 r c.hostnameNow)).map
        (fun p => (p.1, p.2.rainfallLabel)) = md.map (fun p => (p.1, toString r)) := by
      rw [List.map_map]
      apply List.map_congr_left
      intro a _
      rfl
    rcases hs : c.sample with _ | s
    · have hrc : run_cycle hostname md c
          = ((.resolveHostname
                :: [Effect.httpGet (api_url WEATHER_LONG WEATHER_LAT app_id)]
                ++ [.sensorRead]) ++ [.sleep POLL_INTERVAL],
             .ok (md.map fun p => (p.1, base_series p.1 r c.hostnameNow))) := by
        unfold run_cycle
        rw [cts_eq]
        simp [hf, hs]
      rw [hrc] at hok ⊢
      simp only [Except.ok.injEq] at hok
      subst hok
      refine ⟨?_, r, hbuilt⟩
      simp [List.countP_cons, List.countP_append, Effect.isHttpGet]
    · rcases hp : get_project_id c.env with e | pid
      · have hrc : run_cycle hostname md c
            = (.resolveHostname
                :: [Effect.httpGet (api_url WEATHER_LONG WEATHER_LAT app_id)]
                ++ [.sensorRead], .error e) := by
          unfold run_cycle
          rw [cts_eq]
          simp [hf, hs, hp]
        rw [hrc] at hok
        simp at hok
      · rcases hpub : c.publishResult with e | u
        · have hrc : (run_cycle hostname md c).2 = .error e := by
            unfold run_cycle
            rw [cts_eq]
            simp [hf, hs, hp, hpub]
          rw [hrc] at hok
          simp at hok
        · have hrc : run_cycle hostname md c
              = ((.resolveHostname
                    :: [Effect.httpGet (api_url WEATHER_LONG WEATHER_LAT app_id)]
                    ++ [.sensorRead,
                        .publish ((merge_points
                          (md.map fun p => (p.1, base_series p.1 r c.hostnameNow))
                          s c.clock).map Prod.snd)]) ++ [.sleep POLL_INTERVAL],
                 .ok (merge_points
                   (md.map fun p => (p.1, base_series p.1 r c.hostnameNow))
                   s c.clock)) := by
            unfold run_cycle
            rw [cts_eq]
            simp [hf, hs, hp, hpub]
          rw [hrc] at hok ⊢
          simp only [Except.ok.injEq] at hok
          subst hok
          refine ⟨?_, r, ?_⟩
          · simp [List.countP_cons, List.countP_append, Effect.isHttpGet]
          · rw [merge_points_labels]
            exact hbuilt

/-- Witness for C10 at a concrete completing cycle. -/
theorem C10_rainfall_fetched_once_and_uniform_witness :
    (run_cycle "host" metric_dict cycleWithSample).1.countP Effect.isHttpGet = 1 :=
  (C10_rainfall_fetched_once_and_uniform "host" metric_dict cycleWithSample
    (merged_expected 3 "host" sampleData (fun _ => 100)) (by rfl)).1

/-- C7: in a cycle with a fresh sample (and a successful fetch, project
id and publish), the cycle returns the envelopes with exactly one point
appended per metric; every appended point has `0 ≤ nanos ≤ 999999999`
and its seconds are Python's `int(...)` truncation of the wall-clock
reading taken when that field was merged. -/
theorem C7_exactly_one_point_per_metric (hostname : String) (c : CycleInput)
    (s : SensorData) (tr : List Effect) (r : Int) (pid : String)
    (hs : c.sample = some s)
    (hf : fetch_rainfall c.env c.http WEATHER_LONG WEATHER_LAT = (tr, .ok r))
    (hp : get_project_id c.env = .ok pid)
    (hpub : c.publishResult = .ok ())
    (hclock : ∀ i, 0 ≤ c.clock i) :
    (run_cycle hostname metric_dict c).2
      = .ok (merged_expected r c.hostnameNow s c.clock)
    ∧ (merged_expected r c.hostnameNow s c.clock).map (fun p => p.2.points.length)
      = metric_dict.map (fun _ => 1)
    ∧ ∀ p ∈ merged_expected r c.hostnameNow s c.clock, ∀ pt ∈ p.2.points,
        0 ≤ pt.nanos ∧ pt.nanos ≤ 999999999
        ∧ ∃ i, pt.seconds = pyInt (c.clock i) := by
  refine ⟨?_, rfl, ?_⟩
  · unfold run_cycle
    rw [cts_eq]
    simp [hf, hs, hp, hpub, merge_points_metric_dict]
  · intro p hmem pt hpt
    simp only [merged_expected, List.mem_cons, List.not_mem_nil, or_false] at hmem
    rcases hmem with rfl | rfl | rfl | rfl | rfl | rfl | rfl <;>
      (simp only [List.mem_singleton] at hpt
       subst hpt
       exact ⟨(mkPoint_nanos_bound _ _ (hclock _)).1,
              (mkPoint_nanos_bound _ _ (hclock _)).2, _, rfl⟩)

/-- Witness for C7 at a concrete sampling cycle. -/
theorem C7_exactly_one_point_per_metric_witness :
    (run_cycle "host" metric_dict cycleWithSample).2
      = .ok (merged_expected 3 "host" sampleData (fun _ => 100)) :=
  (C7_exactly_one_point_per_metric "host" cycleWithSample sampleData
    [.httpGet (api_url WEATHER_LONG WEATHER_LAT "abc")] 3 "proj"
    rfl rfl rfl rfl (fun _ => by norm_num [cycleWithSample])).1

/-- C9: descriptor registration. Every descriptor handed to the backend
has kind GAUGE, value type DOUBLE and the single INT64 `rainfall` label;
when the backend accepts them all, `create_sensor_metrics` issues exactly
one create-descriptor call per catalog entry, in order, with no local
deduplication; the first backend failure stops the iteration right there
(calls issued only for the prefix, no retry) and, since `main` runs
`create_sensor_metrics` first, such a failure aborts startup: the loop
contributes nothing to the run. -/
theorem C9_register_all_before_loop (env : List (String × String))
    (backend : MetricDescriptor → Except Err MetricDescriptor)
    (pid : String) (hpid : get_project_id env = .ok pid) :
    (∀ mtype mdesc, (build_descriptor mtype mdesc).metric_kind = .GAUGE
        ∧ (build_descriptor mtype mdesc).value_type = .DOUBLE
        ∧ (build_descriptor mtype mdesc).labels
          = [{ key := "rainfall", value_type := .INT64,
               description := "observed rainfall data from weather report service" }])
    ∧ (∀ md : List (String × String),
        (∀ p ∈ md, ∃ d, backend (build_descriptor p.1 p.2) = .ok d) →
        create_sensor_metrics env backend md
          = (md.map fun p => .createDescriptor (build_descriptor p.1 p.2), .ok ()))
    ∧ (∀ pre : List (String × String), ∀ m : String × String,
        ∀ rest : List (String × String), ∀ e : Err,
        (∀ p ∈ pre, ∃ d, backend (build_descriptor p.1 p.2) = .ok d) →
        backend (build_descriptor m.1 m.2) = .error e →
        create_sensor_metrics env backend (pre ++ m :: rest)
          = ((pre ++ [m]).map fun p => .createDescriptor (build_descriptor p.1 p.2),
             .error e))
    ∧ (∀ startupHostname : String, ∀ cycles : List CycleInput,
        ∀ tr : List Effect, ∀ e : Err,
        create_sensor_metrics env backend metric_dict = (tr, .error e) →
        main_model env backend startupHostname cycles = (tr, .error e)) := by
  have hcd_ok : ∀ mtype mdesc d, backend (build_descriptor mtype mdesc) = .ok d →
      create_double_guage_metrics env backend mtype mdesc
        = ([.createDescriptor (build_descriptor mtype mdesc)], .ok d) := by
    intro mtype mdesc d hd
    unfold create_double_guage_metrics
    rw [hpid]
    simp [hd]
  have hcd_err : ∀ mtype mdesc e, backend (build_descriptor mtype mdesc) = .error e →
      create_double_guage_metrics env backend mtype mdesc
        = ([.createDescriptor (build_descriptor mtype mdesc)], .error e) := by
    intro mtype mdesc e he
    unfold create_double_guage_metrics
    rw [hpid]
    simp [he]
  refine ⟨fun mtype mdesc => ⟨rfl, rfl, rfl⟩, ?_, ?_, ?_⟩
  · intro md h
    induction md with
    | nil => rfl
    | cons p rest ih =>
      rcases p with ⟨mtype, mdesc⟩
      obtain ⟨d, hd⟩ := h _ (List.mem_cons_self _ _)
      have hrest := ih (fun q hq => h q (List.mem_cons_of_mem _ hq))
      simp only [create_sensor_metrics, hcd_ok mtype mdesc d hd, hrest]
      simp
  · intro pre m rest e h hbe
    induction pre with
    | nil =>
      rcases m with ⟨mtype, mdesc⟩
      simp only [List.nil_append, create_sensor_metrics,
        hcd_err mtype mdesc e hbe]
      simp
    | cons q pre ih =>
      rcases q with ⟨qtype, qdesc⟩
      obtain ⟨d, hd⟩ := h _ (List.mem_cons_self _ _)
      have hrest := ih (fun x hx => h x (List.mem_cons_of_mem _ hx))
      simp only [List.cons_append, create_sensor_metrics,
        hcd_ok qtype qdesc d hd, hrest]
      simp [hrest]
  · intro startupHostname cycles tr e h
    simp only [main_model, h]

/-- Witness for C9: a backend accepting everything receives exactly one
call per entry of the seven-metric catalog. -/
theorem C9_register_all_before_loop_witness :
    create_sensor_metrics envAll (fun d => .ok d) metric_dict
      = (metric_dict.map fun p => .createDescriptor (build_descriptor p.1 p.2),
         .ok ()) :=
  (C9_register_all_before_loop envAll (fun d => .ok d) "proj" rfl).2.1
    metric_dict (fun p _ => ⟨build_descriptor p.1 p.2, rfl⟩)
